import Mathlib

/-!
# api-sekertaris: signup, login and bearer-token middleware

A shallow embedding of `main.go`.  Go strings are byte sequences, so they are
embedded as lists of bytes.  The handlers are pure functions of

* the process state (the `user` table behind `db` and the package variable
  `jwtKey`),
* the decoded request body (`none` when `json.Decoder.Decode` fails),
* the outcome of every effect outside the program during the call
  (`Env`: the clock, driver errors of the database, the entropy source),
* the third-party libraries (`Lib`: validator's `email` tag, rune counting,
  SHA-512, bcrypt, jwt-go), which are parameters of the development.

`log.Println` calls write to the operator log only and are left out.
-/

namespace Sekertaris

/-- A Go `string` (equally a `[]byte`): a sequence of bytes. -/
abbrev GoString := List UInt8

/-- The bytes of an ASCII source literal. -/
def ascii (s : String) : GoString := s.toList.map fun c => UInt8.ofNat c.toNat

/-! ## Types of `main.go` -/

/-- Go `type SignupUser struct`. -/
structure SignupUser where
  Email : GoString
  Password : GoString
  ConfirmPassword : GoString
  Role : GoString
deriving DecidableEq

/-- Go `type LoginUser struct`. -/
structure LoginUser where
  Email : GoString
  Password : GoString
deriving DecidableEq

/-- A row of the `user` table: the columns `email`, `password`, `role`. -/
structure User where
  Email : GoString
  Password : GoString
  Role : GoString
deriving DecidableEq

/-- Go `type Claims struct`; of the embedded `jwt.StandardClaims` only
`ExpiresAt` is ever set, the other fields keep their zero value. -/
structure Claims where
  Email : GoString
  Role : GoString
  ExpiresAt : Int
deriving DecidableEq

/-! ## Libraries and environment -/

/-- The third-party and standard-library functions the program calls. -/
structure Lib where
  /-- The `email` tag of go-playground/validator. -/
  isEmail : GoString → Bool
  /-- Go `utf8.RuneCountInString`, which validator's `min`/`max` apply to strings. -/
  runeCount : GoString → Nat
  /-- Go `sha512.New()`, `Write`, `Sum(nil)`. -/
  sha512 : GoString → GoString
  /-- Go `bcrypt.GenerateFromPassword(password, cost)`; the last argument is the
  entropy source it reads its salt from. -/
  bcryptGenerate : GoString → Int → (Nat → Except GoString GoString) → Except GoString GoString
  /-- Go `bcrypt.CompareHashAndPassword(hash, password) == nil`. -/
  bcryptCompare : GoString → GoString → Bool
  /-- Go `jwt.NewWithClaims(jwt.SigningMethodHS256, claims).SignedString(key)`. -/
  jwtSign : Claims → GoString → Except GoString GoString
  /-- Go `jwt.ParseWithClaims(tokenString, claims, keyFunc)` with the key and
  the current time: `some claims` when `err == nil && token.Valid`. -/
  jwtParse : GoString → GoString → Int → Option Claims

/-- The comparison tells `password` from `registered`: no hash generated from
`registered` accepts `password`. -/
def Lib.Distinguishes (L : Lib) (registered password : GoString) : Prop :=
  ∀ (cost : Int) (rnd : Nat → Except GoString GoString) (h : GoString),
    L.bcryptGenerate registered cost rnd = Except.ok h → L.bcryptCompare h password = false

/-- The idealised bcrypt pair: comparing a generated hash with a byte string
succeeds exactly when that byte string is the one that was hashed.  An
assumption stronger than `BcryptSound`: golang.org/x/crypto/bcrypt keys on the
password followed by a NUL byte, repeated up to 72 bytes, and so accepts
some byte strings other than the one hashed. -/
def Lib.BcryptExact (L : Lib) : Prop :=
  ∀ (x : GoString) (cost : Int) (rnd : Nat → Except GoString GoString) (h : GoString),
    L.bcryptGenerate x cost rnd = Except.ok h → ∀ y : GoString, L.bcryptCompare h y = true ↔ y = x

/-- SHA-512 digests are 64 bytes long. -/
def Lib.Sha512Size (L : Lib) : Prop := ∀ x : GoString, (L.sha512 x).length = 64

/-- What the world outside the program does during one handler call. -/
structure Env where
  /-- Go `time.Now()`, in nanoseconds since the Unix epoch. -/
  now : Int
  /-- The error of `db.QueryRow(...).Scan` other than `sql.ErrNoRows`, if the
  query fails. -/
  queryErr : Option GoString
  /-- The error of `db.Exec`, if the statement fails. -/
  execErr : Option GoString
  /-- Go `rand.Read` on a buffer of the given length: the bytes read, or the error. -/
  randRead : Nat → Except GoString GoString

/-- The mutable package-level state: the table behind `db` and `jwtKey`. -/
structure State where
  db : List User
  jwtKey : GoString
deriving DecidableEq

/-- Go `var jwtKey = []byte("")` and an empty table. -/
def State.init : State := { db := [], jwtKey := [] }

/-! ## `http.ResponseWriter` -/

/-- The part of an `http.ResponseWriter` a handler controls: the header map
under edit, the status once written, the headers frozen when the status was
written, and the body. -/
structure ResponseWriter where
  header : List (String × GoString) := []
  status : Option Nat := none
  sent : List (String × GoString) := []
  body : GoString := []
deriving DecidableEq

/-- Go `w.Header().Set(key, value)`. -/
def ResponseWriter.headerSet (w : ResponseWriter) (key : String) (value : GoString) :
    ResponseWriter :=
  { w with header := (w.header.filter fun p => p.1 != key) ++ [(key, value)] }

/-- Go `w.WriteHeader(code)`: the first call fixes the status and the headers. -/
def ResponseWriter.WriteHeader (w : ResponseWriter) (code : Nat) : ResponseWriter :=
  match w.status with
  | some _ => w
  | none => { w with status := some code, sent := w.header }

/-- Go `w.Write(b)`: writes status 200 first if no status was written. -/
def ResponseWriter.Write (w : ResponseWriter) (b : GoString) : ResponseWriter :=
  let w1 := w.WriteHeader 200
  { w1 with body := w1.body ++ b }

/-- Go `http.Error(w, error, code)`. -/
def httpError (w : ResponseWriter) (error : GoString) (code : Nat) : ResponseWriter :=
  let w1 := w.headerSet "Content-Type" (ascii "text/plain; charset=utf-8")
  let w2 := w1.headerSet "X-Content-Type-Options" (ascii "nosniff")
  let w3 := w2.WriteHeader code
  w3.Write (error ++ ascii "\n")

def StatusCreated : Nat := 201
def StatusBadRequest : Nat := 400
def StatusUnauthorized : Nat := 401
def StatusInternalServerError : Nat := 500

/-! ## The credential store -/

/-- The result of `db.QueryRow(...).Scan(...)`. -/
inductive ScanResult where
  | row (u : User)
  | errNoRows
  | err (e : GoString)
deriving DecidableEq

/-- Go `db.QueryRow("SELECT ... FROM user WHERE email = ?", email).Scan(...)`:
the first row whose `email` column equals the argument, byte for byte. -/
def queryRow (db : List User) (queryErr : Option GoString) (email : GoString) : ScanResult :=
  match queryErr with
  | some e => ScanResult.err e
  | none =>
    match db.find? fun u => u.Email == email with
    | some u => ScanResult.row u
    | none => ScanResult.errNoRows

/-- Go `db.Exec("INSERT INTO user (email, password, role) VALUES (?, ?, ?)", ...)`:
a failing statement leaves the table as it was. -/
def execInsert (db : List User) (execErr : Option GoString) (u : User) :
    Except GoString (List User) :=
  match execErr with
  | some e => Except.error e
  | none => Except.ok (db ++ [u])

/-! ## Functions of `main.go` -/

/-- Go `hashPassword`; `rnd` is the entropy source bcrypt reads. -/
def hashPassword (L : Lib) (password : GoString) (cost : Int)
    (rnd : Nat → Except GoString GoString) : Except GoString GoString :=
  let hashed := L.sha512 password
  match L.bcryptGenerate hashed cost rnd with
  | Except.error err => Except.error err
  | Except.ok bytes => Except.ok bytes

/-- Go `checkPasswordHash`. -/
def checkPasswordHash (L : Lib) (password hash : GoString) : Bool :=
  L.bcryptCompare hash password

/-- Go `generateRandomKey`. -/
def generateRandomKey (env : Env) (length : Nat) : Except GoString GoString :=
  match env.randRead length with
  | Except.error err => Except.error err
  | Except.ok key => Except.ok key

/-- Go `validate.Struct(user)` for a `SignupUser`, by its `validate` tags:
`true` when no error is returned. -/
def validateSignupUser (L : Lib) (u : SignupUser) : Bool :=
  (u.Email != [] && L.isEmail u.Email && decide (5 ≤ L.runeCount u.Email)
      && decide (L.runeCount u.Email ≤ 20))
    && (u.Password != [] && decide (8 ≤ L.runeCount u.Password))
    && (u.ConfirmPassword != [] && u.ConfirmPassword == u.Password)
    && (u.Role != [] && (u.Role == ascii "admin" || u.Role == ascii "guest"))

/-- Go `validate.Struct(user)` for a `LoginUser`. -/
def validateLoginUser (L : Lib) (u : LoginUser) : Bool :=
  (u.Email != [] && L.isEmail u.Email && decide (5 ≤ L.runeCount u.Email)
      && decide (L.runeCount u.Email ≤ 20))
    && (u.Password != [] && decide (8 ≤ L.runeCount u.Password))

def msgInvalidJSON : GoString := ascii "\x7b\"Error Message\": \"Invalid JSON format\"\x7d"
def msgInvalidInput : GoString := ascii "\x7b\"Error Message\": \"Invalid input data\"\x7d"
def msgEmailExists : GoString :=
  ascii "\x7b\"Error Message\": \"Email sudah ada silahkan masukan email lain\"\x7d"
def msgProcessing : GoString := ascii "\x7b\"Error Message\": \"Error processing request\"\x7d"
def msgPasswordMismatch : GoString := ascii "\x7b\"Error Message\": \"Password tidak sama\"\x7d"
def msgInvalidLogin : GoString :=
  ascii "\x7b\"Error Message\": \"Invalid Email or password\"\x7d"
def msgMissingHeader : GoString :=
  ascii "\x7b\"Error Message\": \"Missing authorization header\"\x7d"
def msgInvalidToken : GoString := ascii "\x7b\"Error Message\": \"Invalid token\"\x7d"
def msgCreated : GoString := ascii "\x7b\"message\": \"User created successfully\"\x7d"

/-- Go `SignupHandler`: the response written and the state left behind. -/
def SignupHandler (L : Lib) (s : State) (env : Env) (body : Option SignupUser) :
    ResponseWriter × State :=
  let w : ResponseWriter := {}
  match body with
  | none => (httpError w msgInvalidJSON StatusBadRequest, s)
  | some user =>
    if validateSignupUser L user = false then
      (httpError w msgInvalidInput StatusBadRequest, s)
    else
      match queryRow s.db env.queryErr user.Email with
      | ScanResult.row _ => (httpError w msgEmailExists StatusBadRequest, s)
      | ScanResult.err _ => (httpError w msgProcessing StatusInternalServerError, s)
      | ScanResult.errNoRows =>
        if user.Password ≠ user.ConfirmPassword then
          (httpError w msgPasswordMismatch StatusBadRequest, s)
        else
          match L.bcryptGenerate user.Password 14 env.randRead with
          | Except.error _ => (httpError w msgProcessing StatusInternalServerError, s)
          | Except.ok hashedPassword =>
            match execInsert s.db env.execErr
                { Email := user.Email, Password := hashedPassword, Role := user.Role } with
            | Except.error err =>
              (httpError w (ascii "\x7b\"Error Message\": \"" ++ err ++ ascii "\"\x7d")
                StatusInternalServerError, s)
            | Except.ok db1 =>
              let w1 := w.WriteHeader StatusCreated
              let w2 := w1.headerSet "Content-Type" (ascii "application/json")
              (w2.Write msgCreated, { s with db := db1 })

/-- Go `5 * time.Minute`, in nanoseconds. -/
def fiveMinutes : Int := 5 * 60 * 1000000000

/-- Go `time.Time.Unix` of an instant given in nanoseconds since the epoch. -/
def unixSeconds (t : Int) : Int := Int.fdiv t 1000000000

/-- The outcome of `SigninHandler`: the response, the state, and the claims
handed to `SignedString` when the handler got as far as signing. -/
structure SigninResult where
  resp : ResponseWriter
  state : State
  signed : Option Claims
deriving DecidableEq

/-- Go `SigninHandler`. -/
def SigninHandler (L : Lib) (s : State) (env : Env) (body : Option LoginUser) : SigninResult :=
  let w : ResponseWriter := {}
  match body with
  | none => ⟨httpError w msgInvalidJSON StatusBadRequest, s, none⟩
  | some user =>
    if validateLoginUser L user = false then
      ⟨httpError w msgInvalidInput StatusBadRequest, s, none⟩
    else
      match queryRow s.db env.queryErr user.Email with
      | ScanResult.err _ => ⟨httpError w msgInvalidLogin StatusUnauthorized, s, none⟩
      | ScanResult.errNoRows => ⟨httpError w msgInvalidLogin StatusUnauthorized, s, none⟩
      | ScanResult.row found =>
        -- Scan(&storedPassword, &role): role is read here and not used below
        let storedPassword := found.Password
        if checkPasswordHash L user.Password storedPassword = false then
          ⟨httpError w msgInvalidLogin StatusUnauthorized, s, none⟩
        else
          let expirationTime := env.now + fiveMinutes
          -- the literal sets Email and ExpiresAt; Role keeps its zero value
          let claims : Claims :=
            { Email := user.Email, Role := [], ExpiresAt := unixSeconds expirationTime }
          match generateRandomKey env 32 with
          | Except.error _ =>
            -- the failed call returns a nil key, which the assignment stores in jwtKey
            ⟨httpError w msgProcessing StatusInternalServerError, { s with jwtKey := [] }, none⟩
          | Except.ok key =>
            let s1 : State := { s with jwtKey := key }
            match L.jwtSign claims key with
            | Except.error _ =>
              ⟨httpError w msgProcessing StatusInternalServerError, s1, some claims⟩
            | Except.ok tokenString =>
              let w1 := w.headerSet "Authorization" (ascii "Bearer " ++ tokenString)
              let w2 := w1.headerSet "Content-Type" (ascii "application/json")
              ⟨w2.Write (ascii "\x7b\"token\": \"" ++ tokenString
                  ++ ascii "\", \"redirect\": \"dashboard\"\x7d"), s1, some claims⟩

/-- How a call of the handler returned by `JWTMiddleware` ends. -/
inductive Served where
  /-- The middleware wrote a response itself and returned. -/
  | responded (w : ResponseWriter)
  /-- It called `next.ServeHTTP` with `Email` and `Role` in the request context. -/
  | next (email role : GoString)
  /-- A run-time panic: slice bounds out of range. -/
  | panic
deriving DecidableEq

/-- Go slice expression `s[lo:]` on a string: `none` is the run-time panic
when `lo > len(s)`. -/
def sliceFrom (s : GoString) (lo : Nat) : Option GoString :=
  if lo ≤ s.length then some (s.drop lo) else none

/-- Go `JWTMiddleware(next)`, applied to a request whose `Authorization`
header is `authHeader` (`r.Header.Get` gives `""` when it is absent). -/
def JWTMiddleware (L : Lib) (s : State) (env : Env) (authHeader : GoString) : Served × State :=
  let w : ResponseWriter := {}
  if authHeader = [] then
    (Served.responded (httpError w msgMissingHeader StatusUnauthorized), s)
  else
    match sliceFrom authHeader (ascii "Bearer ").length with
    | none => (Served.panic, s)
    | some tokenString =>
      match L.jwtParse tokenString s.jwtKey env.now with
      | none => (Served.responded (httpError w msgInvalidToken StatusUnauthorized), s)
      | some claims => (Served.next claims.Email claims.Role, s)

/-! ## A reference library

A small executable instance of `Lib`, used to run the handlers on concrete
requests.  Its bcrypt stores salt and password in the clear and its token
carries the key as its signature: stand-ins with the interface, not the
cryptography, of the real functions. -/

/-- An address with an at-sign that is neither its first nor its last byte. -/
def refIsEmail (s : GoString) : Bool :=
  match s.indexOf? 64 with
  | none => false
  | some i => decide (0 < i) && decide (i + 1 < s.length)

/-- The number of bytes that do not continue a UTF-8 sequence: the rune count
of a valid UTF-8 string. -/
def refRuneCount (s : GoString) : Nat := (s.filter fun b => b.toNat / 64 != 2).length

/-- A 64-byte digest stand-in. -/
def refSha512 (x : GoString) : GoString :=
  ((x ++ List.replicate 64 0).take 64).map fun b => b + 1

/-- The 16 salt bytes, padded or cut to length. -/
def refSalt (salt : GoString) : GoString := (salt ++ List.replicate 16 0).take 16

/-- Two decimal digits of a cost. -/
def refCostDigits (cost : Int) : GoString :=
  [UInt8.ofNat (48 + cost.toNat / 10 % 10), UInt8.ofNat (48 + cost.toNat % 10)]

/-- Stand-in for `bcrypt.GenerateFromPassword`: a cost above 31 and a failing
entropy source are errors, a cost below 4 is replaced by 10. -/
def refBcryptGenerate (password : GoString) (cost : Int)
    (rnd : Nat → Except GoString GoString) : Except GoString GoString :=
  if 31 < cost then Except.error (ascii "crypto/bcrypt: cost outside allowed range")
  else
    match rnd 16 with
    | Except.error e => Except.error e
    | Except.ok salt =>
      Except.ok (ascii "$2a$" ++ refCostDigits (if cost < 4 then 10 else cost) ++ ascii "$"
        ++ refSalt salt ++ password)

/-- Stand-in for `bcrypt.CompareHashAndPassword`. -/
def refBcryptCompare (hash password : GoString) : Bool :=
  decide (23 ≤ hash.length) && hash.take 4 == ascii "$2a$" && hash.drop 23 == password

/-- Eight bytes, big-endian, of a number. -/
def refBytes8 (n : Nat) : GoString :=
  (List.range 8).reverse.map fun i => UInt8.ofNat (n / 256 ^ i)

/-- The number a big-endian byte string stands for. -/
def refFromBytes (b : GoString) : Nat := b.foldl (fun acc x => acc * 256 + x.toNat) 0

/-- Length-prefixed serialisation of the claims. -/
def refEncodeClaims (c : Claims) : GoString :=
  [UInt8.ofNat c.Email.length] ++ c.Email ++ [UInt8.ofNat c.Role.length] ++ c.Role
    ++ refBytes8 c.ExpiresAt.toNat

/-- Stand-in for signing: the serialised claims followed by the key. -/
def refJwtSign (c : Claims) (key : GoString) : Except GoString GoString :=
  Except.ok (refEncodeClaims c ++ key)

/-- Stand-in for parsing: the claims are read back and the token is valid
when its tail is the key and it has not expired. -/
def refJwtParse (token key : GoString) (now : Int) : Option Claims :=
  match token with
  | [] => none
  | n :: rest =>
    match rest.drop n.toNat with
    | [] => none
    | m :: rest2 =>
      let rest3 := rest2.drop m.toNat
      let exp : Int := refFromBytes (rest3.take 8)
      if rest3.drop 8 == key && decide (unixSeconds now ≤ exp) then
        some { Email := rest.take n.toNat, Role := rest2.take m.toNat, ExpiresAt := exp }
      else none

/-- The reference library. -/
def refLib : Lib where
  isEmail := refIsEmail
  runeCount := refRuneCount
  sha512 := refSha512
  bcryptGenerate := refBcryptGenerate
  bcryptCompare := refBcryptCompare
  jwtSign := refJwtSign
  jwtParse := refJwtParse

/-- An environment in which nothing fails: the entropy source yields the
bytes 1, 2, ..., the clock shows `now`. -/
def calmEnv (now : Int) : Env where
  now := now
  queryErr := none
  execErr := none
  randRead := fun n => Except.ok ((List.range n).map fun i => UInt8.ofNat (i + 1))

/-- The registration request of the spec's example. -/
def exampleSignup : SignupUser where
  Email := ascii "user@test.io"
  Password := ascii "longenough1"
  ConfirmPassword := ascii "longenough1"
  Role := ascii "guest"

/-- The state after the example registration on an empty table. -/
def exampleState : State := (SignupHandler refLib State.init (calmEnv 0) (some exampleSignup)).2

/-- The identifier is registered with the password: the row the lookup finds
for it holds a hash that bcrypt generated from that password. -/
def Registered (L : Lib) (db : List User) (email password : GoString) : Prop :=
  ∃ (row : User) (cost : Int) (rnd : Nat → Except GoString GoString),
    queryRow db none email = ScanResult.row row ∧
      L.bcryptGenerate password cost rnd = Except.ok row.Password

/-- An environment in which the database cannot be reached. -/
def dbDownEnv : Env :=
  { calmEnv 0 with
    queryErr := some (ascii "dial tcp 127.0.0.1:3306: connect: connection refused")
    execErr := some (ascii "dial tcp 127.0.0.1:3306: connect: connection refused") }

/-- The key Blowfish is set up with in bcrypt: the password followed by a NUL
byte, repeated to 72 bytes. -/
def cycledKey (password : GoString) : GoString :=
  (List.range 72).map fun i => (password ++ [0]).getD (i % (password.length + 1)) 0

/-- Stand-in for `bcrypt.GenerateFromPassword` that keeps the Blowfish key of
the password instead of the password. -/
def keyedBcryptGenerate (password : GoString) (cost : Int)
    (rnd : Nat → Except GoString GoString) : Except GoString GoString :=
  refBcryptGenerate (cycledKey password) cost rnd

/-- Stand-in for `bcrypt.CompareHashAndPassword` on such hashes. -/
def keyedBcryptCompare (hash password : GoString) : Bool :=
  refBcryptCompare hash (cycledKey password)

/-- The reference library with a bcrypt that keys on the password the way
Blowfish key setup does. -/
def keyedLib : Lib :=
  { refLib with bcryptGenerate := keyedBcryptGenerate, bcryptCompare := keyedBcryptCompare }

/-- A registration request with the password "aaaaaaaa". -/
def repeatSignup : SignupUser where
  Email := ascii "user@test.io"
  Password := ascii "aaaaaaaa"
  ConfirmPassword := ascii "aaaaaaaa"
  Role := ascii "guest"

/-- A login request with the password "aaaaaaaa", a NUL byte, "aaaaaaaa". -/
def repeatLogin : LoginUser where
  Email := ascii "user@test.io"
  Password := ascii "aaaaaaaa" ++ [0] ++ ascii "aaaaaaaa"

/-- The login request of the spec's example with the right password. -/
def exampleLogin : LoginUser where
  Email := ascii "user@test.io"
  Password := ascii "longenough1"

/-- The state after the example registration and login: `jwtKey` holds the
key of that login. -/
def exampleLoggedIn : State := (SigninHandler refLib exampleState (calmEnv 0) (some exampleLogin)).state

/-- The token the example login issued. -/
def exampleToken : GoString :=
  refEncodeClaims { Email := ascii "user@test.io", Role := [], ExpiresAt := 300 }
    ++ (List.range 32).map fun i => UInt8.ofNat (i + 1)

/-- A registration request for the example identifier with a role outside
the fixed set. -/
def badRoleSignup : SignupUser where
  Email := ascii "user@test.io"
  Password := ascii "longenough1"
  ConfirmPassword := ascii "longenough1"
  Role := ascii "root"

/-- An environment in which the lookup works and the insert fails. -/
def insertFailsEnv (e : GoString) : Env := { calmEnv 0 with execErr := some e }

/-! ## Lemmas on the model -/

theorem httpError_status (m : GoString) (c : Nat) :
    (httpError {} m c).status = some c := rfl

theorem httpError_body (m : GoString) (c : Nat) :
    (httpError {} m c).body = m ++ ascii "\n" := rfl

theorem queryRow_append_of_noRows {db : List User} {q : Option GoString} {email : GoString}
    (h : queryRow db q email = ScanResult.errNoRows) (u : User) (hu : u.Email = email) :
    queryRow (db ++ [u]) none email = ScanResult.row u := by
  unfold queryRow at h ⊢
  cases q with
  | some e => simp at h
  | none =>
    simp only at h ⊢
    cases hf : db.find? (fun u => u.Email == email) with
    | some r => rw [hf] at h; simp at h
    | none =>
      rw [List.find?_append, hf]
      simp [List.find?, hu]

/-- What a `201 Created` answer of `SignupHandler` says about the call. -/
theorem signup_created {L : Lib} {s : State} {env : Env} {u : SignupUser}
    (h : (SignupHandler L s env (some u)).1.status = some StatusCreated) :
    validateSignupUser L u = true ∧ queryRow s.db env.queryErr u.Email = ScanResult.errNoRows ∧
      u.Password = u.ConfirmPassword ∧
      ∃ hash, L.bcryptGenerate u.Password 14 env.randRead = Except.ok hash ∧ env.execErr = none ∧
        (SignupHandler L s env (some u)).2
          = { s with db := s.db ++ [{ Email := u.Email, Password := hash, Role := u.Role }] } := by
  unfold SignupHandler at h ⊢
  simp only at h ⊢
  split at h
  · simp [httpError_status, StatusCreated, StatusBadRequest] at h
  · rename_i hv
    split at h
    · simp [httpError_status, StatusCreated, StatusBadRequest] at h
    · simp [httpError_status, StatusCreated, StatusInternalServerError] at h
    · rename_i hq
      split at h
      · simp [httpError_status, StatusCreated, StatusBadRequest] at h
      · rename_i hp
        split at h
        · simp [httpError_status, StatusCreated, StatusInternalServerError] at h
        · rename_i hash hg
          split at h
          · simp [httpError_status, StatusCreated, StatusInternalServerError] at h
          · rename_i db1 he
            have hx : env.execErr = none ∧
                db1 = s.db ++ [{ Email := u.Email, Password := hash, Role := u.Role }] := by
              unfold execInsert at he
              cases hxe : env.execErr with
              | some e => rw [hxe] at he; simp at he
              | none => rw [hxe] at he; simp at he; exact ⟨rfl, he.symm⟩
            have hv1 : validateSignupUser L u = true := by simpa using hv
            have hp1 : u.Password = u.ConfirmPassword := by simpa using hp
            refine ⟨hv1, hq, hp1, hash, hg, hx.1, ?_⟩
            simp only [hv1, hq, hg, he, hx.2]
            simp [hp1]

/-- An accepted signup registers the identifier with the password. -/
theorem signup_registers {L : Lib} {s : State} {env : Env} {u : SignupUser}
    (h : (SignupHandler L s env (some u)).1.status = some StatusCreated) :
    Registered L (SignupHandler L s env (some u)).2.db u.Email u.Password := by
  obtain ⟨_, hq, _, hash, hg, _, hst⟩ := signup_created h
  rw [hst]
  exact ⟨{ Email := u.Email, Password := hash, Role := u.Role }, 14, env.randRead,
    queryRow_append_of_noRows hq _ rfl, hg⟩

/-- The reference bcrypt is an exact pair. -/
theorem refLib_bcryptExact : refLib.BcryptExact := by
  intro x cost rnd h hgen y
  simp only [refLib, refBcryptGenerate] at hgen
  split at hgen
  · simp at hgen
  · split at hgen
    · simp at hgen
    · rename_i salt _
      simp only [Except.ok.injEq] at hgen
      subst hgen
      have hlen : (ascii "$2a$" ++ refCostDigits (if cost < 4 then 10 else cost) ++ ascii "$"
          ++ refSalt salt).length = 23 := by
        simp [ascii, refCostDigits, refSalt]
      have htake : (ascii "$2a$" ++ refCostDigits (if cost < 4 then 10 else cost) ++ ascii "$"
          ++ refSalt salt ++ x).take 4 = ascii "$2a$" := by
        simp only [List.append_assoc]
        exact List.take_left' rfl
      simp only [refLib, refBcryptCompare, List.drop_left' hlen, htake, List.length_append, hlen,
        Bool.and_eq_true, decide_eq_true_eq, beq_iff_eq]
      constructor
      · intro hh; exact hh.2.symm
      · intro hh
        exact ⟨⟨by omega, trivial⟩, hh.symm⟩

/-- An exact bcrypt pair tells every two different byte strings apart. -/
theorem distinguishes_of_exact {L : Lib} (hb : L.BcryptExact) {registered password : GoString}
    (hne : password ≠ registered) : L.Distinguishes registered password := by
  intro cost rnd h hg
  cases hc : L.bcryptCompare h password with
  | false => rfl
  | true => exact absurd ((hb _ _ _ _ hg password).1 hc) hne

theorem refLib_sha512Size : refLib.Sha512Size := by
  intro x
  simp [refLib, refSha512]

/-! ## Register, then log in -/

/-- Claim C9, as amended: a login that passes structural validation and names
an identifier registered with a password the bcrypt comparison tells from the
login's password is answered with the 401 "Invalid Email or password"
response, whatever the environment does; a login that fails structural
validation is answered with 400 "Invalid input data", whatever the store
holds. -/
theorem C9_wrong_password_unauthorized (L : Lib) (s : State) (env : Env)
    (email registered password : GoString) :
    (Registered L s.db email registered → L.Distinguishes registered password →
        validateLoginUser L { Email := email, Password := password } = true →
        (SigninHandler L s env (some { Email := email, Password := password })).resp
          = httpError {} msgInvalidLogin StatusUnauthorized) ∧
      (validateLoginUser L { Email := email, Password := password } = false →
        (SigninHandler L s env (some { Email := email, Password := password })).resp
          = httpError {} msgInvalidInput StatusBadRequest) := by
  constructor
  · intro hreg hd hv
    obtain ⟨row, cost, rnd, hrow, hgen⟩ := hreg
    have hchk : checkPasswordHash L password row.Password = false := hd cost rnd _ hgen
    simp only [SigninHandler, hv]
    cases hqe : env.queryErr with
    | some e => simp [queryRow]
    | none => simp [hrow, hchk]
  · intro hv
    simp only [SigninHandler, hv]
    rfl

/-- Witness for C9: after the example registration, the login with the
password "wrongwrong" is answered 401 and the login with "wrong" 400. -/
theorem C9_wrong_password_unauthorized_witness :
    Registered refLib exampleState.db (ascii "user@test.io") (ascii "longenough1") ∧
      refLib.Distinguishes (ascii "longenough1") (ascii "wrongwrong") ∧
      (SigninHandler refLib exampleState (calmEnv 0)
          (some { Email := ascii "user@test.io", Password := ascii "wrongwrong" })).resp
        = httpError {} msgInvalidLogin StatusUnauthorized ∧
      (SigninHandler refLib exampleState (calmEnv 0)
          (some { Email := ascii "user@test.io", Password := ascii "wrong" })).resp
        = httpError {} msgInvalidInput StatusBadRequest :=
  have hreg : Registered refLib exampleState.db (ascii "user@test.io") (ascii "longenough1") :=
    signup_registers
      (by decide : (SignupHandler refLib State.init (calmEnv 0) (some exampleSignup)).1.status
        = some StatusCreated)
  have hd : refLib.Distinguishes (ascii "longenough1") (ascii "wrongwrong") :=
    distinguishes_of_exact refLib_bcryptExact (by decide)
  ⟨hreg, hd,
    (C9_wrong_password_unauthorized refLib exampleState (calmEnv 0) (ascii "user@test.io")
      (ascii "longenough1") (ascii "wrongwrong")).1 hreg hd (by decide),
    (C9_wrong_password_unauthorized refLib exampleState (calmEnv 0) (ascii "user@test.io")
      (ascii "longenough1") (ascii "wrong")).2 (by decide)⟩

/-- Claim C9 as stated fails twice.  On its own example: after registering
user@test.io with "longenough1", the login with password "wrong" (five
characters, under the minimum of eight) is answered 400 "Invalid input
data", not 401.  And with a bcrypt that keys on the password as Blowfish key
setup does: after registering with "aaaaaaaa", the login with the different
password "aaaaaaaa", NUL, "aaaaaaaa" passes validation and is answered 200
with a token. -/
theorem C9_example_wrong_is_bad_request :
    ((SignupHandler refLib State.init (calmEnv 0) (some exampleSignup)).1.status
        = some StatusCreated ∧
      (SigninHandler refLib exampleState (calmEnv 0)
          (some { Email := ascii "user@test.io", Password := ascii "wrong" })).resp
        = httpError {} msgInvalidInput StatusBadRequest ∧
      (SigninHandler refLib exampleState (calmEnv 0)
          (some { Email := ascii "user@test.io", Password := ascii "wrong" })).resp.status
        ≠ some StatusUnauthorized) ∧
    ((SignupHandler keyedLib State.init (calmEnv 0) (some repeatSignup)).1.status
        = some StatusCreated ∧
      repeatLogin.Email = repeatSignup.Email ∧
      repeatLogin.Password ≠ repeatSignup.Password ∧
      validateLoginUser keyedLib repeatLogin = true ∧
      (SigninHandler keyedLib (SignupHandler keyedLib State.init (calmEnv 0) (some repeatSignup)).2
          (calmEnv 0) (some repeatLogin)).resp.status = some 200) := by
  decide

/-! ## Password hashing -/

/-- Claim C2 fails on the code: `hashPassword` hands bcrypt the SHA-512
digest of the password and `checkPasswordHash` compares the password itself,
so for every password that is not 64 bytes long, every cost and every hash
`hashPassword` returns, `checkPasswordHash` is false. -/
theorem C2_check_rejects_hashPassword (L : Lib) (hb : L.BcryptExact) (hsz : L.Sha512Size)
    (password : GoString) (cost : Int) (rnd : Nat → Except GoString GoString) (h : GoString)
    (hlen : password.length ≠ 64)
    (hh : hashPassword L password cost rnd = Except.ok h) :
    checkPasswordHash L password h = false := by
  unfold hashPassword at hh
  simp only at hh
  cases hg : L.bcryptGenerate (L.sha512 password) cost rnd with
  | error e => rw [hg] at hh; simp at hh
  | ok bytes =>
    rw [hg] at hh
    simp only [Except.ok.injEq] at hh
    subst hh
    cases hc : checkPasswordHash L password bytes with
    | false => rfl
    | true =>
      have heq : password = L.sha512 password := (hb _ _ _ _ hg password).1 hc
      exact absurd (heq ▸ hsz password) hlen

/-- Witness for C2: the password "longenough1" at cost 14. -/
theorem C2_check_rejects_hashPassword_witness :
    (∃ h, hashPassword refLib (ascii "longenough1") 14 (calmEnv 0).randRead = Except.ok h) ∧
      checkPasswordHash refLib (ascii "longenough1")
          (ascii "$2a$14$" ++ refSalt ((List.range 16).map fun i => UInt8.ofNat (i + 1))
            ++ refSha512 (ascii "longenough1")) = false :=
  ⟨⟨_, rfl⟩,
    C2_check_rejects_hashPassword refLib refLib_bcryptExact refLib_sha512Size
      (ascii "longenough1") 14 (calmEnv 0).randRead _ (by decide) rfl⟩

/-! ## Login -/

/-- Claim C3: for a login request that passes validation, the response is the
same value, with status 401 and the same body, whether the lookup reports no
row, the lookup reports another error, or the lookup finds a row whose hash
`checkPasswordHash` rejects. -/
theorem C3_uniform_login_rejection (L : Lib) (u : LoginUser)
    (hv : validateLoginUser L u = true)
    (sA sB sC : State) (envA envB envC : Env) (e : GoString) (row : User)
    (hA : queryRow sA.db envA.queryErr u.Email = ScanResult.errNoRows)
    (hB : queryRow sB.db envB.queryErr u.Email = ScanResult.err e)
    (hC : queryRow sC.db envC.queryErr u.Email = ScanResult.row row)
    (hC2 : checkPasswordHash L u.Password row.Password = false) :
    (SigninHandler L sA envA (some u)).resp = (SigninHandler L sB envB (some u)).resp ∧
      (SigninHandler L sB envB (some u)).resp = (SigninHandler L sC envC (some u)).resp ∧
      (SigninHandler L sA envA (some u)).resp.status = some StatusUnauthorized ∧
      (SigninHandler L sA envA (some u)).resp.body = msgInvalidLogin ++ ascii "\n" := by
  have rA : (SigninHandler L sA envA (some u)).resp
      = httpError {} msgInvalidLogin StatusUnauthorized := by
    simp only [SigninHandler, hv, hA]; rfl
  have rB : (SigninHandler L sB envB (some u)).resp
      = httpError {} msgInvalidLogin StatusUnauthorized := by
    simp only [SigninHandler, hv, hB]; rfl
  have rC : (SigninHandler L sC envC (some u)).resp
      = httpError {} msgInvalidLogin StatusUnauthorized := by
    simp only [SigninHandler, hv, hC, hC2]; rfl
  rw [rA, rB, rC]
  exact ⟨rfl, rfl, rfl, rfl⟩

/-- Witness for C3: an unknown identifier on an empty table, an unreachable
database, and the registered example identifier with another password. -/
theorem C3_uniform_login_rejection_witness :
    (SigninHandler refLib State.init (calmEnv 0)
          (some { Email := ascii "user@test.io", Password := ascii "wrongwrong" })).resp
        = (SigninHandler refLib exampleState dbDownEnv
          (some { Email := ascii "user@test.io", Password := ascii "wrongwrong" })).resp ∧
      (SigninHandler refLib exampleState dbDownEnv
          (some { Email := ascii "user@test.io", Password := ascii "wrongwrong" })).resp
        = (SigninHandler refLib exampleState (calmEnv 0)
          (some { Email := ascii "user@test.io", Password := ascii "wrongwrong" })).resp ∧
      (SigninHandler refLib State.init (calmEnv 0)
          (some { Email := ascii "user@test.io", Password := ascii "wrongwrong" })).resp.status
        = some StatusUnauthorized ∧
      (SigninHandler refLib State.init (calmEnv 0)
          (some { Email := ascii "user@test.io", Password := ascii "wrongwrong" })).resp.body
        = msgInvalidLogin ++ ascii "\n" :=
  C3_uniform_login_rejection refLib
    { Email := ascii "user@test.io", Password := ascii "wrongwrong" } (by decide)
    State.init exampleState exampleState (calmEnv 0) dbDownEnv (calmEnv 0)
    (ascii "dial tcp 127.0.0.1:3306: connect: connection refused")
    { Email := ascii "user@test.io",
      Password := ascii "$2a$14$" ++ refSalt ((List.range 16).map fun i => UInt8.ofNat (i + 1))
        ++ ascii "longenough1",
      Role := ascii "guest" }
    (by decide) (by decide) (by decide) (by decide)

/-- The expiry of a token: five minutes after the clock, in Unix seconds. -/
theorem unixSeconds_add_fiveMinutes (now : Int) :
    unixSeconds (now + fiveMinutes) = unixSeconds now + 300 := by
  unfold unixSeconds fiveMinutes
  rw [Int.fdiv_eq_ediv _ (by norm_num), Int.fdiv_eq_ediv _ (by norm_num)]
  omega

/-- The claims `SigninHandler` hands to the signer: the request's email, the
expiry five minutes ahead, and an empty role. -/
theorem signin_signed_claims (L : Lib) (s : State) (env : Env) (u : LoginUser) (c : Claims)
    (h : (SigninHandler L s env (some u)).signed = some c) :
    c.Email = u.Email ∧ c.ExpiresAt = unixSeconds env.now + 300 ∧ c.Role = [] := by
  rw [← unixSeconds_add_fiveMinutes]
  unfold SigninHandler at h
  simp only at h
  repeat' split at h
  all_goals first
    | (simp at h; done)
    | (simp only [Option.some.injEq] at h; subst h; exact ⟨rfl, rfl, rfl⟩)

/-- Claim C4 fails on the code: in the example, the role the lookup fetches
for user@test.io is "guest", the login at clock 1700000000.123456789 s
succeeds, and the claims it signs carry the email and the expiry 1700000300
but an empty role. -/
theorem C4_signed_claims_lack_role :
    (∃ row, queryRow exampleState.db none (ascii "user@test.io") = ScanResult.row row ∧
        row.Role = ascii "guest") ∧
      (SigninHandler refLib exampleState (calmEnv 1700000000123456789)
          (some exampleLogin)).resp.status = some 200 ∧
      (SigninHandler refLib exampleState (calmEnv 1700000000123456789) (some exampleLogin)).signed
        = some { Email := ascii "user@test.io", Role := [], ExpiresAt := 1700000300 } :=
  ⟨⟨_, rfl, by decide⟩, by decide, by decide⟩

/-! ## Registration -/

/-- Claim C5, as amended: a registration request that passes structural
validation and whose identifier the uniqueness lookup finds in the store is
rejected with 400 and the message "Email sudah ada silahkan masukan email
lain"; a request that fails structural validation is rejected with 400
"Invalid input data", whatever the store holds; a request that passes
validation and whose lookup fails is rejected with 500 "Error processing
request".  In all three cases the state is left as it was. -/
theorem C5_duplicate_rejected (L : Lib) (s : State) (env : Env) (u : SignupUser) :
    (validateSignupUser L u = true → env.queryErr = none →
        (∃ row ∈ s.db, row.Email = u.Email) →
        SignupHandler L s env (some u) = (httpError {} msgEmailExists StatusBadRequest, s)) ∧
      (validateSignupUser L u = false →
        SignupHandler L s env (some u) = (httpError {} msgInvalidInput StatusBadRequest, s)) ∧
      (validateSignupUser L u = true → ∀ e, env.queryErr = some e →
        SignupHandler L s env (some u)
          = (httpError {} msgProcessing StatusInternalServerError, s)) := by
  refine ⟨?_, ?_, ?_⟩
  · intro hv hq hp
    obtain ⟨row, hmem, hrow⟩ := hp
    have hfind : ∃ r, queryRow s.db env.queryErr u.Email = ScanResult.row r := by
      rw [hq]
      unfold queryRow
      cases hf : s.db.find? (fun x => x.Email == u.Email) with
      | some r => exact ⟨r, rfl⟩
      | none =>
        have := List.find?_eq_none.1 hf row hmem
        simp [hrow] at this
    obtain ⟨r, hr⟩ := hfind
    simp only [SignupHandler, hv, hr]
    rfl
  · intro hv
    simp only [SignupHandler, hv]
    rfl
  · intro hv e he
    simp only [SignupHandler, hv, he, queryRow]
    rfl

/-- Witness for C5: with user@test.io in the store, a registration for it
with another valid password and role is the duplicate, one with the role
"root" is invalid input, and a valid one during a database outage is a
processing error. -/
theorem C5_duplicate_rejected_witness :
    SignupHandler refLib exampleState (calmEnv 0)
        (some { Email := ascii "user@test.io", Password := ascii "otherpass99",
                ConfirmPassword := ascii "otherpass99", Role := ascii "admin" })
      = (httpError {} msgEmailExists StatusBadRequest, exampleState) ∧
    SignupHandler refLib exampleState (calmEnv 0) (some badRoleSignup)
      = (httpError {} msgInvalidInput StatusBadRequest, exampleState) ∧
    SignupHandler refLib exampleState dbDownEnv (some exampleSignup)
      = (httpError {} msgProcessing StatusInternalServerError, exampleState) :=
  ⟨(C5_duplicate_rejected refLib exampleState (calmEnv 0)
      { Email := ascii "user@test.io", Password := ascii "otherpass99",
        ConfirmPassword := ascii "otherpass99", Role := ascii "admin" }).1
      (by decide) rfl (by decide),
    (C5_duplicate_rejected refLib exampleState (calmEnv 0) badRoleSignup).2.1 (by decide),
    (C5_duplicate_rejected refLib exampleState dbDownEnv exampleSignup).2.2 (by decide) _ rfl⟩

/-- Claim C5 as stated fails: with user@test.io in the store, a well-formed
registration request for user@test.io with the role "root" is answered with
"Invalid input data", and when the lookup itself fails a valid request for
it is answered with 500 "Error processing request"; neither is the
duplicate-identifier response. -/
theorem C5_present_identifier_other_response :
    (∃ row ∈ exampleState.db, row.Email = badRoleSignup.Email) ∧
      (SignupHandler refLib exampleState (calmEnv 0) (some badRoleSignup)).1
        = httpError {} msgInvalidInput StatusBadRequest ∧
      (SignupHandler refLib exampleState (calmEnv 0) (some badRoleSignup)).1
        ≠ httpError {} msgEmailExists StatusBadRequest ∧
      (SignupHandler refLib exampleState dbDownEnv (some exampleSignup)).1
        = httpError {} msgProcessing StatusInternalServerError := by
  decide

/-- Claim C7: a `SignupHandler` call that answers 201 leaves the table with
exactly one row appended, holding the request's email and role and the hash
bcrypt generated from its password; a call that answers anything else leaves
the state as it was; `SigninHandler` and the middleware leave the table as it
was. -/
theorem C7_store_effects (L : Lib) (s : State) (env : Env) (signup : Option SignupUser)
    (login : Option LoginUser) (authHeader : GoString) :
    ((SignupHandler L s env signup).1.status = some StatusCreated →
        ∃ u hash, signup = some u ∧
          L.bcryptGenerate u.Password 14 env.randRead = Except.ok hash ∧
          (SignupHandler L s env signup).2.db
            = s.db ++ [{ Email := u.Email, Password := hash, Role := u.Role }]) ∧
      ((SignupHandler L s env signup).1.status ≠ some StatusCreated →
        (SignupHandler L s env signup).2 = s) ∧
      (SigninHandler L s env login).state.db = s.db ∧
      (JWTMiddleware L s env authHeader).2 = s := by
  refine ⟨?_, ?_, ?_, ?_⟩
  · intro h
    cases signup with
    | none => exact absurd h (by simp [SignupHandler, httpError_status, StatusCreated, StatusBadRequest])
    | some u =>
      obtain ⟨_, _, _, hash, hg, _, hst⟩ := signup_created h
      exact ⟨u, hash, rfl, hg, by rw [hst]⟩
  · intro h
    unfold SignupHandler at h ⊢
    simp only at h ⊢
    repeat' split
    all_goals first
      | rfl
      | (exfalso; apply h; simp_all [ResponseWriter.Write, ResponseWriter.WriteHeader,
          ResponseWriter.headerSet])
  · unfold SigninHandler
    simp only
    repeat' split
    all_goals rfl
  · unfold JWTMiddleware
    simp only
    repeat' split
    all_goals rfl

/-- Witness for C7: the example registration answers 201 and leaves the
empty table with one row for user@test.io and the role "guest". -/
theorem C7_store_effects_witness :
    (SignupHandler refLib State.init (calmEnv 0) (some exampleSignup)).1.status
        = some StatusCreated ∧
      ∃ u hash, some exampleSignup = some u ∧
        refLib.bcryptGenerate u.Password 14 (calmEnv 0).randRead = Except.ok hash ∧
        (SignupHandler refLib State.init (calmEnv 0) (some exampleSignup)).2.db
          = State.init.db ++ [{ Email := u.Email, Password := hash, Role := u.Role }] :=
  ⟨by decide,
    (C7_store_effects refLib State.init (calmEnv 0) (some exampleSignup) none []).1 (by decide)⟩

/-- Claim C8 fails on the code: when the insert fails, the body of the 500
response quotes the store error, so two store errors give two bodies, while a
failing lookup gives the fixed message "Error processing request". -/
theorem C8_insert_error_text_in_body :
    (SignupHandler refLib State.init
          (insertFailsEnv (ascii "dial tcp 127.0.0.1:3306: connect: connection refused"))
          (some exampleSignup)).1
        = httpError {}
            (ascii ("\x7b\"Error Message\": \"dial tcp 127.0.0.1:3306: connect: "
              ++ "connection refused\"\x7d"))
            StatusInternalServerError ∧
      (SignupHandler refLib State.init (insertFailsEnv (ascii "Error 1146: no such table"))
          (some exampleSignup)).1
        = httpError {} (ascii "\x7b\"Error Message\": \"Error 1146: no such table\"\x7d")
            StatusInternalServerError ∧
      (SignupHandler refLib State.init dbDownEnv (some exampleSignup)).1
        = httpError {} msgProcessing StatusInternalServerError := by
  decide

/-! ## Token middleware -/

/-- Claim C6 fails on the code: the middleware drops the first seven bytes of
the header without looking at them, so a header made of any seven bytes
followed by a token the parser accepts reaches the next handler. -/
theorem C6_scheme_not_checked (L : Lib) (s : State) (env : Env) (scheme tok : GoString)
    (c : Claims) (hlen : scheme.length = 7)
    (htok : L.jwtParse tok s.jwtKey env.now = some c) :
    JWTMiddleware L s env (scheme ++ tok) = (Served.next c.Email c.Role, s) := by
  have hne : scheme ++ tok ≠ [] := by
    intro h
    have := congrArg List.length h
    simp [hlen] at this
  have hslice : sliceFrom (scheme ++ tok) (ascii "Bearer ").length = some tok := by
    have h7 : (ascii "Bearer ").length = 7 := rfl
    unfold sliceFrom
    rw [h7, if_pos (by simp [hlen]), List.drop_left' hlen]
  simp only [JWTMiddleware, hne, hslice, htok, if_false]

/-- Witness for C6: the header "Digest " followed by the token of the example
login, within its validity, is passed on with the token's email. -/
theorem C6_scheme_not_checked_witness :
    (ascii "Digest " ++ exampleToken).take 7 ≠ ascii "Bearer " ∧
      JWTMiddleware refLib exampleLoggedIn (calmEnv 0) (ascii "Digest " ++ exampleToken)
        = (Served.next (ascii "user@test.io") [], exampleLoggedIn) :=
  ⟨by decide,
    C6_scheme_not_checked refLib exampleLoggedIn (calmEnv 0) (ascii "Digest ") exampleToken
      { Email := ascii "user@test.io", Role := [], ExpiresAt := 300 } rfl (by decide)⟩

/-- Claim C10 fails on the code: for the header "abc" the slice
`authHeader[len("Bearer "):]` is out of range and the middleware panics; it
neither writes a response nor calls the next handler. -/
theorem C10_short_header_panics (L : Lib) (s : State) (env : Env) :
    JWTMiddleware L s env (ascii "abc") = (Served.panic, s) := by
  rfl

end Sekertaris
